import Mathlib

/-!
Shallow embedding of the typed messaging and settings-synchronization core of
the chrome-extension-boilerplate repository: the storage helpers of
src/lib/storage.ts, the message router and channel adapters of
src/lib/messaging.ts, and the background handlers of src/background/index.ts.

Conventions of the embedding:
  * The persisted store (chrome.storage.local as used by the program) is a
    record of two optional keys, settings and userData; absence of a key is
    modelled by none.
  * A stored settings value is modelled at the raw JavaScript-object level:
    each of its three fields is optional, so that completeness of stored
    records is a provable property rather than a typing artifact.
  * A thrown JavaScript value is either an Error object carrying a message or
    some other value; the source's pattern
    (error instanceof Error ? error.message : "Unknown error") is the
    describe function.
  * Promise completion or rejection of a handler is modelled by an Except
    outcome; awaiting is modelled by matching on that outcome.
-/

inductive Theme where
  | light
  | dark
  | system
deriving DecidableEq, Repr

/-- The complete settings shape of StorageSchema in src/lib/storage.ts. -/
structure Settings where
  enabled : Bool
  theme : Theme
  notifications : Bool
deriving DecidableEq, Repr

/-- A settings value as it sits in the untyped store: every field optional. -/
structure RawSettings where
  enabled : Option Bool
  theme : Option Theme
  notifications : Option Bool
deriving DecidableEq, Repr

/-- The userData shape of StorageSchema in src/lib/storage.ts. -/
structure UserData where
  lastVisit : Int
  visitCount : Int
deriving DecidableEq, Repr

/-- The flat key space of chrome.storage.local as used by the program. -/
structure StorageState where
  settings : Option RawSettings
  userData : Option UserData
deriving DecidableEq, Repr

/-- The defaultSettings constant of src/lib/storage.ts. -/
def defaultSettings : Settings :=
  ⟨true, Theme.system, true⟩

/-- View a complete settings record as a raw stored object (all fields set). -/
def Settings.toRaw (v : Settings) : RawSettings :=
  ⟨some v.enabled, some v.theme, some v.notifications⟩

/-- getStorage applied to the settings key. -/
def getStorageSettings (s : StorageState) : Option RawSettings :=
  s.settings

/-- setStorage applied to the settings key. -/
def setStorageSettings (v : RawSettings) (s : StorageState) : StorageState :=
  ⟨some v, s.userData⟩

/-- removeStorage applied to the settings key. -/
def removeStorageSettings (s : StorageState) : StorageState :=
  ⟨none, s.userData⟩

/-- setStorage applied to the userData key. -/
def setStorageUserData (u : UserData) (s : StorageState) : StorageState :=
  ⟨s.settings, some u⟩

/-- getAllStorage of src/lib/storage.ts: chrome.storage.local.get(null)
returns the whole (partial) key space. -/
def getAllStorage (s : StorageState) : StorageState :=
  s

/-- clearStorage of src/lib/storage.ts: chrome.storage.local.clear() removes
every key. -/
def clearStorage (_s : StorageState) : StorageState :=
  ⟨none, none⟩

/-- initializeStorage of src/lib/storage.ts: write defaultSettings if the
settings key is absent, then write a fresh userData record (lastVisit is the
current time, a parameter here) if the userData key is absent. -/
def initializeStorage (now : Int) (s : StorageState) : StorageState :=
  let s1 :=
    match s.settings with
    | none => setStorageSettings defaultSettings.toRaw s
    | some _ => s
  match s1.userData with
  | none => setStorageUserData ⟨now, 0⟩ s1
  | some _ => s1

/-- JavaScript object-spread semantics for one optional field: a key present
in the overriding object wins, otherwise the base object's key survives. -/
def spreadField {α : Type} (base over : Option α) : Option α :=
  match over with
  | some v => some v
  | none => base

/-- Object spread of two raw settings objects over the three known keys,
modelling the source expression with currentSettings spread first and the
patch spread second. -/
def spreadSettings (base patch : RawSettings) : RawSettings :=
  ⟨spreadField base.enabled patch.enabled,
   spreadField base.theme patch.theme,
   spreadField base.notifications patch.notifications⟩

/-- The response shape of the UPDATE_SETTINGS and TOGGLE_EXTENSION kinds. -/
structure SuccessResp where
  success : Bool
deriving DecidableEq, Repr

/-- The GET_SETTINGS handler of src/background/index.ts: the stored record
when present, the built-in defaults otherwise. -/
def getSettingsHandler (s : StorageState) : RawSettings :=
  (getStorageSettings s).getD defaultSettings.toRaw

/-- The UPDATE_SETTINGS handler of src/background/index.ts: read the current
record (defaulted if absent), spread the patch over it, store the result. -/
def updateSettingsHandler (patch : RawSettings) (s : StorageState) :
    SuccessResp × StorageState :=
  let currentSettings := (getStorageSettings s).getD defaultSettings.toRaw
  let newSettings := spreadSettings currentSettings patch
  (⟨true⟩, setStorageSettings newSettings s)

/-- A thrown JavaScript value: an Error object with a message, or anything
else. -/
inductive JsError where
  | errObj (message : String)
  | otherThrown
deriving DecidableEq, Repr

/-- The source's recurring description of a caught value:
error instanceof Error ? error.message : "Unknown error". -/
def JsError.describe : JsError → String
  | .errObj m => m
  | .otherThrown => "Unknown error"

/-- A tab as returned by chrome.tabs.query: its id may be absent. -/
structure Tab where
  id : Option Nat
deriving DecidableEq, Repr

/-- The fan-out loop of the TOGGLE_EXTENSION handler: for each tab, if its id
is truthy (present and nonzero), attempt to send EXTENSION_STATE_CHANGED with
payload enabled to it; a delivery failure is caught and ignored. Returns the
list of attempted notifications as pairs of tab id and payload flag. -/
def fanOutStateChanged (enabled : Bool) (deliver : Nat → Except JsError Unit) :
    List Tab → List (Nat × Bool)
  | [] => []
  | t :: ts =>
    match t.id with
    | none => fanOutStateChanged enabled deliver ts
    | some i =>
      if i = 0 then
        fanOutStateChanged enabled deliver ts
      else
        match deliver i with
        | Except.ok _ => (i, enabled) :: fanOutStateChanged enabled deliver ts
        | Except.error _ => (i, enabled) :: fanOutStateChanged enabled deliver ts

/-- The TOGGLE_EXTENSION handler of src/background/index.ts: persist the
current record with the enabled flag overridden, fan the state change out to
all queried tabs, and respond success. -/
def toggleExtensionHandler (enabled : Bool) (tabs : List Tab)
    (deliver : Nat → Except JsError Unit) (s : StorageState) :
    SuccessResp × List (Nat × Bool) × StorageState :=
  let currentSettings := (getStorageSettings s).getD defaultSettings.toRaw
  let s1 := setStorageSettings
    ⟨some enabled, currentSettings.theme, currentSettings.notifications⟩ s
  let sent := fanOutStateChanged enabled deliver tabs
  (⟨true⟩, sent, s1)

/-- The generic response shape of src/lib/messaging.ts. -/
structure RouterResponse (δ : Type) where
  success : Bool
  data : Option δ
  error : Option String
deriving DecidableEq, Repr

/-- The closed set of message kinds of MessageTypes in src/lib/messaging.ts. -/
inductive MessageType where
  | GET_TAB_INFO
  | TOGGLE_EXTENSION
  | GET_SETTINGS
  | UPDATE_SETTINGS
  | CONTENT_ACTION
deriving DecidableEq, Repr

/-- The listener installed by createMessageHandler in src/lib/messaging.ts,
for one inbound message: look the kind up in the handler table; when a
handler exists, await it and call sendResponse exactly once with success and
its data, or with failure and the caught value's description, returning true
to keep the channel open; when none exists, call sendResponse not at all and
return false. The first component collects the sendResponse calls made. -/
def handleMessage {κ π δ σ : Type}
    (handlers : κ → Option (π → σ → Except JsError δ))
    (msgType : κ) (payload : π) (sender : σ) :
    List (RouterResponse δ) × Bool :=
  match handlers msgType with
  | some h =>
    match h payload sender with
    | Except.ok d => ([⟨true, some d, none⟩], true)
    | Except.error e => ([⟨false, none, some e.describe⟩], true)
  | none => ([], false)

/-- sendToTab of src/lib/messaging.ts: transmit to a tab's content script and
return its response; catch a transport failure and return it as a failure
response value. -/
def sendToTab {κ π δ : Type}
    (transport : Nat → κ → π → Except JsError (RouterResponse δ))
    (tabId : Nat) (msgType : κ) (payload : π) : RouterResponse δ :=
  match transport tabId msgType payload with
  | Except.ok r => r
  | Except.error e => ⟨false, none, some e.describe⟩

/-- sendToActiveTab of src/lib/messaging.ts: take the first tab of the query
result; when the tab is missing or its id is falsy (absent or zero), return
the "No active tab found" failure; otherwise defer to sendToTab. -/
def sendToActiveTab {κ π δ : Type} (queryResult : List Tab)
    (transport : Nat → κ → π → Except JsError (RouterResponse δ))
    (msgType : κ) (payload : π) : RouterResponse δ :=
  match queryResult.head? with
  | none => ⟨false, none, some "No active tab found"⟩
  | some t =>
    match t.id with
    | none => ⟨false, none, some "No active tab found"⟩
    | some i =>
      if i = 0 then ⟨false, none, some "No active tab found"⟩
      else sendToTab transport i msgType payload

/-- A raw settings object with all three fields present. -/
def completeRaw (r : RawSettings) : Bool :=
  r.enabled.isSome && r.theme.isSome && r.notifications.isSome

/-- Invariant of the store: the settings key is absent or holds a complete
record. -/
def settingsOk (s : StorageState) : Bool :=
  match s.settings with
  | none => true
  | some r => completeRaw r

/-- The storage-touching operations the program performs. -/
inductive StoreOp where
  | setSettingsOp (v : Settings)
  | setUserDataOp (u : UserData)
  | removeSettingsOp
  | clearOp
  | initializeOp (now : Int)
  | getSettingsOp
  | updateSettingsOp (patch : RawSettings)
  | toggleOp (enabled : Bool) (tabs : List Tab)
      (deliver : Nat → Except JsError Unit)

/-- Effect of each operation on the store. The typed setStorage of
src/lib/storage.ts only accepts a complete Settings value for the settings
key, hence setSettingsOp carries a Settings. -/
def applyOp : StoreOp → StorageState → StorageState
  | StoreOp.setSettingsOp v, s => setStorageSettings v.toRaw s
  | StoreOp.setUserDataOp u, s => setStorageUserData u s
  | StoreOp.removeSettingsOp, s => removeStorageSettings s
  | StoreOp.clearOp, s => clearStorage s
  | StoreOp.initializeOp now, s => initializeStorage now s
  | StoreOp.getSettingsOp, s => s
  | StoreOp.updateSettingsOp patch, s => (updateSettingsHandler patch s).2
  | StoreOp.toggleOp b tabs deliver, s =>
      (toggleExtensionHandler b tabs deliver s).2.2

/-- A transport that always succeeds with a fixed successful response, used
as a concrete instance in witnesses. -/
def demoTransport : Nat → Unit → Unit → Except JsError (RouterResponse Unit) :=
  fun _ _ _ => Except.ok ⟨true, some (), none⟩

/-- A transport that always fails the way Chrome reports a missing listener,
used as a concrete instance in witnesses. -/
def failTransport : Nat → Unit → Unit → Except JsError (RouterResponse Unit) :=
  fun _ _ _ =>
    Except.error (JsError.errObj
      "Could not establish connection. Receiving end does not exist.")

/-- A delivery function that fails for tab 1 and succeeds elsewhere, used as
a concrete instance in witnesses. -/
def demoDeliver : Nat → Except JsError Unit :=
  fun i => if i = 1 then Except.error JsError.otherThrown else Except.ok ()

/-- C5: initializeDefaults is idempotent - running it twice in succession
leaves the store, in particular the settings record, identical to running it
once - and it only writes a built-in default for a key that is absent: a
present settings or userData record is left untouched. -/
theorem initializeStorage_idempotent (s : StorageState) (n1 n2 : Int) :
    initializeStorage n2 (initializeStorage n1 s) = initializeStorage n1 s ∧
    (∀ r : RawSettings, s.settings = some r →
      (initializeStorage n1 s).settings = some r) ∧
    (∀ u : UserData, s.userData = some u →
      (initializeStorage n1 s).userData = some u) := by
  rcases s with ⟨st, ud⟩
  cases st <;> cases ud <;>
    simp [initializeStorage, setStorageSettings, setStorageUserData]

/-- Witness for C5 at a concrete store holding a settings record but no
userData record. -/
theorem initializeStorage_idempotent_witness :
    initializeStorage 5 (initializeStorage 3
        ⟨some (Settings.toRaw ⟨false, Theme.dark, false⟩), none⟩) =
      initializeStorage 3
        ⟨some (Settings.toRaw ⟨false, Theme.dark, false⟩), none⟩ ∧
    (initializeStorage 3
        ⟨some (Settings.toRaw ⟨false, Theme.dark, false⟩), none⟩).settings =
      some (Settings.toRaw ⟨false, Theme.dark, false⟩) :=
  ⟨(initializeStorage_idempotent _ 3 5).1,
   (initializeStorage_idempotent _ 3 5).2.1 _ rfl⟩

/-- Counterexample to C3 as stated: starting from a populated store, clear
empties the store - the stored settings key becomes absent - yet a subsequent
GET_SETTINGS does not return an absent result: the handler returns the
built-in default record, a complete record. -/
theorem clear_getSettings_counterexample :
    (clearStorage ⟨some (Settings.toRaw ⟨false, Theme.dark, false⟩),
        some ⟨7, 3⟩⟩).settings = none ∧
    getSettingsHandler (clearStorage
        ⟨some (Settings.toRaw ⟨false, Theme.dark, false⟩), some ⟨7, 3⟩⟩) =
      Settings.toRaw defaultSettings ∧
    completeRaw (getSettingsHandler (clearStorage
        ⟨some (Settings.toRaw ⟨false, Theme.dark, false⟩), some ⟨7, 3⟩⟩)) =
      true := by
  refine ⟨rfl, rfl, rfl⟩

/-- C3 (amended): after clear, getAll returns the empty mapping and the
stored settings key is absent, staying absent until initializeDefaults or an
explicit UPDATE_SETTINGS stores a record again; a GET_SETTINGS request in the
cleared state, however, does not report absence - it returns the built-in
defaults. -/
theorem clear_getAll_empty_settings_absent (s : StorageState) :
    getAllStorage (clearStorage s) = ⟨none, none⟩ ∧
    (clearStorage s).settings = none ∧
    getSettingsHandler (clearStorage s) = Settings.toRaw defaultSettings ∧
    (∀ now : Int, (initializeStorage now (clearStorage s)).settings =
      some (Settings.toRaw defaultSettings)) ∧
    (∀ patch : RawSettings,
      ((updateSettingsHandler patch (clearStorage s)).2).settings =
        some (spreadSettings (Settings.toRaw defaultSettings) patch)) := by
  refine ⟨rfl, rfl, rfl, fun now => rfl, fun patch => rfl⟩

/-- C4: handling UPDATE_SETTINGS shallow-merges the provided fields over the
current values (defaulted if absent): every field named in the payload takes
the payload's value, every field not named keeps the value GET_SETTINGS
reported before the update, and the handler responds success. -/
theorem updateSettings_shallow_merge (s : StorageState) (patch : RawSettings) :
    (updateSettingsHandler patch s).1 = ⟨true⟩ ∧
    (patch.enabled = none →
      (getSettingsHandler (updateSettingsHandler patch s).2).enabled =
        (getSettingsHandler s).enabled) ∧
    (patch.theme = none →
      (getSettingsHandler (updateSettingsHandler patch s).2).theme =
        (getSettingsHandler s).theme) ∧
    (patch.notifications = none →
      (getSettingsHandler (updateSettingsHandler patch s).2).notifications =
        (getSettingsHandler s).notifications) ∧
    (∀ b : Bool, patch.enabled = some b →
      (getSettingsHandler (updateSettingsHandler patch s).2).enabled =
        some b) ∧
    (∀ t : Theme, patch.theme = some t →
      (getSettingsHandler (updateSettingsHandler patch s).2).theme =
        some t) ∧
    (∀ b : Bool, patch.notifications = some b →
      (getSettingsHandler (updateSettingsHandler patch s).2).notifications =
        some b) := by
  rcases patch with ⟨pe, pt, pn⟩
  refine ⟨rfl, ?_, ?_, ?_, ?_, ?_, ?_⟩ <;> intros <;>
    simp_all [updateSettingsHandler, getSettingsHandler, getStorageSettings,
      setStorageSettings, spreadSettings, spreadField]

/-- Witness for C4, the spec's example: updating only the theme to dark on a
concrete store leaves enabled and notifications as GET_SETTINGS reported
them before and sets the theme to dark. -/
theorem updateSettings_shallow_merge_witness :
    (getSettingsHandler (updateSettingsHandler ⟨none, some Theme.dark, none⟩
        ⟨some (Settings.toRaw ⟨false, Theme.light, true⟩), none⟩).2).theme =
      some Theme.dark ∧
    (getSettingsHandler (updateSettingsHandler ⟨none, some Theme.dark, none⟩
        ⟨some (Settings.toRaw ⟨false, Theme.light, true⟩), none⟩).2).enabled =
      (getSettingsHandler
        ⟨some (Settings.toRaw ⟨false, Theme.light, true⟩), none⟩).enabled ∧
    (getSettingsHandler (updateSettingsHandler ⟨none, some Theme.dark, none⟩
        ⟨some (Settings.toRaw ⟨false, Theme.light, true⟩),
          none⟩).2).notifications =
      (getSettingsHandler
        ⟨some (Settings.toRaw ⟨false, Theme.light, true⟩),
          none⟩).notifications :=
  ⟨(updateSettings_shallow_merge _ _).2.2.2.2.2.1 Theme.dark rfl,
   (updateSettings_shallow_merge _ _).2.1 rfl,
   (updateSettings_shallow_merge _ _).2.2.2.1 rfl⟩

/-- C10: the background GET_SETTINGS handler always returns a settings
record - the stored record when one exists, the built-in defaults
otherwise - so a caller never observes an absent settings result, even
before initialization or after a clear; under the completeness invariant the
returned record is complete. -/
theorem getSettings_never_absent (s : StorageState) :
    (s.settings = none →
      getSettingsHandler s = Settings.toRaw defaultSettings) ∧
    (∀ r : RawSettings, s.settings = some r → getSettingsHandler s = r) ∧
    (settingsOk s = true → completeRaw (getSettingsHandler s) = true) := by
  rcases s with ⟨st, ud⟩
  cases st <;>
    simp [getSettingsHandler, getStorageSettings, settingsOk, completeRaw,
      Settings.toRaw, defaultSettings]

/-- Witness for C10 at the empty store, the state reached before any
initialization: GET_SETTINGS returns the built-in defaults, a complete
record. -/
theorem getSettings_never_absent_witness :
    getSettingsHandler ⟨none, none⟩ = Settings.toRaw defaultSettings ∧
    completeRaw (getSettingsHandler ⟨none, none⟩) = true :=
  ⟨(getSettings_never_absent ⟨none, none⟩).1 rfl,
   (getSettings_never_absent ⟨none, none⟩).2.2 rfl⟩

/-- Counterexample to C1 as stated: with a handler table registering nothing,
the listener created by createMessageHandler calls sendResponse not at all
and returns false for an inbound GET_SETTINGS message; in particular it does
not produce the response with success false and error "Unknown message
type". -/
theorem router_unregistered_counterexample :
    handleMessage
        (fun (_ : MessageType) =>
          (none : Option (Unit → Unit → Except JsError Unit)))
        MessageType.GET_SETTINGS () () = ([], false) ∧
    (handleMessage
        (fun (_ : MessageType) =>
          (none : Option (Unit → Unit → Except JsError Unit)))
        MessageType.GET_SETTINGS () ()).1 ≠
      [⟨false, none, some "Unknown message type"⟩] := by
  refine ⟨rfl, by decide⟩

/-- C1 (amended): for every inbound message whose kind has no registered
handler in the handler table passed to createMessageHandler, the listener
invokes no handler and sends no response - the list of sendResponse calls is
empty and the listener returns false, declining to answer. -/
theorem router_unregistered_no_response {κ π δ σ : Type}
    (handlers : κ → Option (π → σ → Except JsError δ))
    (msgType : κ) (payload : π) (sender : σ)
    (h : handlers msgType = none) :
    handleMessage handlers msgType payload sender = ([], false) := by
  simp [handleMessage, h]

/-- Witness for C1 (amended) at a concrete empty table and kind. -/
theorem router_unregistered_no_response_witness :
    handleMessage
        (fun (_ : MessageType) =>
          (none : Option (Unit → Unit → Except JsError Bool)))
        MessageType.UPDATE_SETTINGS () () = ([], false) :=
  router_unregistered_no_response _ MessageType.UPDATE_SETTINGS () () rfl

/-- C2: for every inbound message whose kind has a registered handler f, the
listener sends exactly one response - success with the handler's value when
f completes normally, failure with the caught value's message string when f
fails - and returns true, keeping the reply channel open until the handler
settles (completion of a synchronous or asynchronous handler is the Except
outcome of f). -/
theorem router_registered_single_response {κ π δ σ : Type}
    (handlers : κ → Option (π → σ → Except JsError δ))
    (msgType : κ) (payload : π) (sender : σ)
    (f : π → σ → Except JsError δ)
    (h : handlers msgType = some f) :
    (handleMessage handlers msgType payload sender).1.length = 1 ∧
    (handleMessage handlers msgType payload sender).2 = true ∧
    (∀ d : δ, f payload sender = Except.ok d →
      (handleMessage handlers msgType payload sender).1 =
        [⟨true, some d, none⟩]) ∧
    (∀ e : JsError, f payload sender = Except.error e →
      (handleMessage handlers msgType payload sender).1 =
        [⟨false, none, some e.describe⟩]) := by
  cases hf : f payload sender with
  | ok d =>
    refine ⟨?_, ?_, ?_, ?_⟩ <;> intros <;>
      simp_all [handleMessage, h, hf]
  | error e =>
    refine ⟨?_, ?_, ?_, ?_⟩ <;> intros <;>
      simp_all [handleMessage, h, hf]

/-- Witness for C2 at a concrete table registering a GET_SETTINGS handler
that completes normally with true: exactly one successful response carrying
the value, and the channel is kept open. -/
theorem router_registered_single_response_witness :
    (handleMessage
        (fun (t : MessageType) =>
          match t with
          | MessageType.GET_SETTINGS =>
              some (fun (_ : Unit) (_ : Unit) => Except.ok true)
          | _ => (none : Option (Unit → Unit → Except JsError Bool)))
        MessageType.GET_SETTINGS () ()).1 = [⟨true, some true, none⟩] ∧
    (handleMessage
        (fun (t : MessageType) =>
          match t with
          | MessageType.GET_SETTINGS =>
              some (fun (_ : Unit) (_ : Unit) => Except.ok true)
          | _ => (none : Option (Unit → Unit → Except JsError Bool)))
        MessageType.GET_SETTINGS () ()).2 = true :=
  ⟨(router_registered_single_response _ MessageType.GET_SETTINGS () ()
      (fun _ _ => Except.ok true) rfl).2.2.1 true rfl,
   (router_registered_single_response _ MessageType.GET_SETTINGS () ()
      (fun _ _ => Except.ok true) rfl).2.1⟩

/-- A field whose base is present stays present under an object spread. -/
theorem spreadField_isSome {α : Type} (base over : Option α)
    (h : base.isSome = true) : (spreadField base over).isSome = true := by
  cases over <;> simp_all [spreadField]

/-- Spreading any patch over a complete raw record yields a complete raw
record. -/
theorem completeRaw_spread (base patch : RawSettings)
    (h : completeRaw base = true) :
    completeRaw (spreadSettings base patch) = true := by
  rcases base with ⟨be, bt, bn⟩
  rcases patch with ⟨pe, pt, pn⟩
  cases pe <;> cases pt <;> cases pn <;>
    simp_all [completeRaw, spreadSettings, spreadField]

/-- Under the invariant, the current record read by a handler (stored record
defaulted if absent) is complete. -/
theorem completeRaw_current (s : StorageState) (h : settingsOk s = true) :
    completeRaw ((getStorageSettings s).getD defaultSettings.toRaw) = true := by
  rcases s with ⟨st, ud⟩
  cases st with
  | none => rfl
  | some r => simpa [settingsOk, getStorageSettings] using h

/-- C7: every storage-touching operation of the program preserves the
invariant that the persisted settings record either does not exist or is a
complete record with all three fields; no operation persists a partial
settings record. -/
theorem settingsOk_preserved (op : StoreOp) (s : StorageState)
    (h : settingsOk s = true) : settingsOk (applyOp op s) = true := by
  cases op with
  | setSettingsOp v =>
    simp [applyOp, setStorageSettings, settingsOk, completeRaw, Settings.toRaw]
  | setUserDataOp u =>
    rcases s with ⟨st, ud⟩
    simpa [applyOp, setStorageUserData, settingsOk] using h
  | removeSettingsOp =>
    simp [applyOp, removeStorageSettings, settingsOk]
  | clearOp =>
    simp [applyOp, clearStorage, settingsOk]
  | initializeOp now =>
    rcases s with ⟨st, ud⟩
    cases st <;> cases ud <;>
      simp_all [applyOp, initializeStorage, setStorageSettings,
        setStorageUserData, settingsOk, completeRaw, Settings.toRaw,
        defaultSettings]
  | getSettingsOp =>
    simpa [applyOp] using h
  | updateSettingsOp patch =>
    have hc := completeRaw_current s h
    simpa [applyOp, updateSettingsHandler, setStorageSettings, settingsOk]
      using completeRaw_spread _ patch hc
  | toggleOp b tabs deliver =>
    have hc := completeRaw_current s h
    rcases hq : (getStorageSettings s).getD defaultSettings.toRaw
      with ⟨ce, ct, cn⟩
    rw [hq] at hc
    simp [completeRaw] at hc
    simp [applyOp, toggleExtensionHandler, setStorageSettings, settingsOk,
      completeRaw, hq, hc.1, hc.2]

/-- Witness for C7: the UPDATE_SETTINGS operation with a partial payload run
on the empty store keeps the invariant. -/
theorem settingsOk_preserved_witness :
    settingsOk (applyOp
      (StoreOp.updateSettingsOp ⟨none, some Theme.dark, none⟩)
      ⟨none, none⟩) = true :=
  settingsOk_preserved _ _ rfl

/-- The attempted fan-out does not depend on which deliveries fail: the
empty catch block swallows every failure and the loop continues. -/
theorem fanOut_deliver_irrelevant (b : Bool)
    (d1 d2 : Nat → Except JsError Unit) :
    ∀ tabs : List Tab,
      fanOutStateChanged b d1 tabs = fanOutStateChanged b d2 tabs := by
  intro tabs
  induction tabs with
  | nil => rfl
  | cons t ts ih =>
    rcases t with ⟨tid⟩
    cases tid with
    | none => simpa [fanOutStateChanged] using ih
    | some i =>
      by_cases hi : i = 0
      · simpa [fanOutStateChanged, hi] using ih
      · cases h1 : d1 i <;> cases h2 : d2 i <;>
          simp [fanOutStateChanged, hi, h1, h2, ih]

/-- When every tab carries a truthy id, the fan-out attempts one
notification per tab, in order, each carrying the new flag. -/
theorem fanOut_covers_all_tabs (b : Bool)
    (deliver : Nat → Except JsError Unit) :
    ∀ tabs : List Tab,
      (∀ t ∈ tabs, ∃ i : Nat, t.id = some i ∧ i ≠ 0) →
      fanOutStateChanged b deliver tabs =
        tabs.map (fun t => (t.id.getD 0, b)) := by
  intro tabs
  induction tabs with
  | nil => intro _; rfl
  | cons t ts ih =>
    intro h
    rcases h t (List.mem_cons_self t ts) with ⟨i, hid, hiz⟩
    have hts : ∀ t2 ∈ ts, ∃ i2 : Nat, t2.id = some i2 ∧ i2 ≠ 0 :=
      fun t2 ht2 => h t2 (List.mem_cons_of_mem _ ht2)
    cases hdel : deliver i <;>
      simp [fanOutStateChanged, hid, hiz, hdel, ih hts]

/-- C6: handling TOGGLE_EXTENSION persists the enabled flag over the current
record with the other fields unchanged, attempts an EXTENSION_STATE_CHANGED
notification carrying the new flag to every known tab (each of which carries
a truthy id), responds success, and the attempted fan-out is the same
whatever deliveries fail - failed deliveries are skipped, never aborting the
fan-out. -/
theorem toggleExtension_persists_and_fans_out (b : Bool) (tabs : List Tab)
    (deliver : Nat → Except JsError Unit) (s : StorageState)
    (hids : ∀ t ∈ tabs, ∃ i : Nat, t.id = some i ∧ i ≠ 0) :
    (toggleExtensionHandler b tabs deliver s).1 = ⟨true⟩ ∧
    ((toggleExtensionHandler b tabs deliver s).2.2).settings =
      some ⟨some b, (getSettingsHandler s).theme,
        (getSettingsHandler s).notifications⟩ ∧
    (toggleExtensionHandler b tabs deliver s).2.1 =
      tabs.map (fun t => (t.id.getD 0, b)) ∧
    (∀ d2 : Nat → Except JsError Unit,
      (toggleExtensionHandler b tabs d2 s).2.1 =
        (toggleExtensionHandler b tabs deliver s).2.1) := by
  refine ⟨rfl, rfl, fanOut_covers_all_tabs b deliver tabs hids, ?_⟩
  intro d2
  simpa [toggleExtensionHandler] using fanOut_deliver_irrelevant b d2 deliver tabs

/-- Witness for C6: toggling to disabled on the empty store with two tabs,
where delivery to tab 1 fails, persists enabled false with defaulted theme
and notifications, attempts notifications to both tabs, and responds
success. -/
theorem toggleExtension_persists_and_fans_out_witness :
    (toggleExtensionHandler false [⟨some 1⟩, ⟨some 2⟩] demoDeliver
      ⟨none, none⟩).1 = ⟨true⟩ ∧
    ((toggleExtensionHandler false [⟨some 1⟩, ⟨some 2⟩] demoDeliver
      ⟨none, none⟩).2.2).settings =
      some ⟨some false, some Theme.system, some true⟩ ∧
    (toggleExtensionHandler false [⟨some 1⟩, ⟨some 2⟩] demoDeliver
      ⟨none, none⟩).2.1 = [(1, false), (2, false)] := by
  have h := toggleExtension_persists_and_fans_out false
    [⟨some 1⟩, ⟨some 2⟩] demoDeliver ⟨none, none⟩
    (by
      intro t ht
      simp only [List.mem_cons, List.mem_singleton] at ht
      rcases ht with rfl | rfl | h0
      · exact ⟨1, rfl, by decide⟩
      · exact ⟨2, rfl, by decide⟩
      · cases h0)
  exact ⟨h.1, h.2.1, h.2.2.1⟩

/-- Counterexample to C8 as stated: the query resolves an active tab whose
id is 0 - a tab that has an id - yet sendToActiveTab returns the "No active
tab found" failure instead of deferring to sendToTab, which here would have
returned a successful response. -/
theorem sendToActiveTab_zero_id_counterexample :
    sendToActiveTab [⟨some 0⟩] demoTransport () () =
      ⟨false, none, some "No active tab found"⟩ ∧
    sendToTab demoTransport 0 () () = ⟨true, some (), none⟩ ∧
    (⟨false, none, some "No active tab found"⟩ : RouterResponse Unit) ≠
      ⟨true, some (), none⟩ := by
  refine ⟨rfl, rfl, by decide⟩

/-- C8 (amended): if the query resolves no active tab, or the resolved tab's
id is missing or 0 (a falsy id), sendToActiveTab returns the failure with
error "No active tab found" without attempting any transmission (the result
does not consult the transport); otherwise it defers to sendToTab with the
resolved tab's id. -/
theorem sendToActiveTab_cases {κ π δ : Type} (queryResult : List Tab)
    (transport : Nat → κ → π → Except JsError (RouterResponse δ))
    (msgType : κ) (payload : π) :
    (queryResult.head? = none →
      sendToActiveTab queryResult transport msgType payload =
        ⟨false, none, some "No active tab found"⟩) ∧
    (∀ t : Tab, queryResult.head? = some t →
      (t.id = none ∨ t.id = some 0) →
      sendToActiveTab queryResult transport msgType payload =
        ⟨false, none, some "No active tab found"⟩) ∧
    (∀ t : Tab, ∀ i : Nat, queryResult.head? = some t → t.id = some i →
      i ≠ 0 →
      sendToActiveTab queryResult transport msgType payload =
        sendToTab transport i msgType payload) := by
  refine ⟨?_, ?_, ?_⟩
  · intro h
    simp [sendToActiveTab, h]
  · intro t h hd
    rcases hd with hd | hd <;> simp [sendToActiveTab, h, hd]
  · intro t i h hid hiz
    simp [sendToActiveTab, h, hid, hiz]

/-- Witness for C8 (amended): an empty query yields the "No active tab
found" failure, and a query resolving a tab with id 5 defers to sendToTab
with 5. -/
theorem sendToActiveTab_cases_witness :
    sendToActiveTab ([] : List Tab) demoTransport () () =
      ⟨false, none, some "No active tab found"⟩ ∧
    sendToActiveTab [⟨some 5⟩] demoTransport () () =
      sendToTab demoTransport 5 () () :=
  ⟨(sendToActiveTab_cases [] demoTransport () ()).1 rfl,
   (sendToActiveTab_cases [⟨some 5⟩] demoTransport () ()).2.2
     ⟨some 5⟩ 5 rfl rfl (by decide)⟩

/-- C9: sendToTab always returns a response value: when the transport to the
destination tab fails it catches the failure and returns success false with
the failure's description (the message for an Error value, "Unknown error"
otherwise), and when the transport succeeds it returns the transported
response unchanged; a failure is never propagated to the caller as an
unhandled fault. -/
theorem sendToTab_catches_transport_failure {κ π δ : Type}
    (transport : Nat → κ → π → Except JsError (RouterResponse δ))
    (tabId : Nat) (msgType : κ) (payload : π) :
    (∀ e : JsError, transport tabId msgType payload = Except.error e →
      sendToTab transport tabId msgType payload =
        ⟨false, none, some e.describe⟩) ∧
    (∀ r : RouterResponse δ, transport tabId msgType payload = Except.ok r →
      sendToTab transport tabId msgType payload = r) := by
  refine ⟨?_, ?_⟩ <;> intro x hx <;> simp [sendToTab, hx]

/-- Witness for C9: a transport failing the way Chrome reports a missing
listener yields the failure as a response value carrying that message. -/
theorem sendToTab_catches_transport_failure_witness :
    sendToTab failTransport 3 () () =
      ⟨false, none,
        some "Could not establish connection. Receiving end does not exist."⟩ ∧
    sendToTab demoTransport 3 () () = ⟨true, some (), none⟩ :=
  ⟨(sendToTab_catches_transport_failure failTransport 3 () ()).1
      (JsError.errObj
        "Could not establish connection. Receiving end does not exist.") rfl,
   (sendToTab_catches_transport_failure demoTransport 3 () ()).2
      ⟨true, some (), none⟩ rfl⟩
